import Mathlib

/-!
Verification of the check execution and aggregation engine of the `sentri`
data-quality framework (`src/data_quality/checks/*.py`,
`src/data_quality/managers/check_manager.py`).

Shallow embedding conventions:
* Python numbers are modelled as `ℚ` (exact rationals standing for the
  program's floats); `Cell := Option ℚ` models a possibly-null value
  (`Option.none` is pandas NaN/None).
* Python dicts used as result records are association lists
  (`RDict := List (String × RVal)`), since which keys a record carries is
  itself part of the specification.
* Exceptions are modelled with `Except PyErr`; a `try/except` block is the
  corresponding `match` on the `Except` value.
* `pandas.DataFrame.query` (the filter condition) is modelled by its
  semantics: either an evaluation error or a row predicate.
* Wall-clock values (`pd.Timestamp.now()`) are threaded as explicit
  `today`/`timestamp` string parameters.
-/

namespace Sentri

/-- CheckStatus enum from utils/constants.py. -/
inductive CheckStatus where
  | PASS
  | WARNING
  | FAIL
  | ERROR
deriving DecidableEq, Repr

/-- Severity enum from utils/constants.py. -/
inductive Severity where
  | INFO
  | WARNING
  | CRITICAL
  | ERROR
deriving DecidableEq, Repr

/-- A value stored in a result record (the Python side stores heterogeneous
dict values: strings, numbers, enums, None, lists, nested dicts). -/
inductive RVal where
  | str (s : String)
  | num (q : ℚ)
  | int (n : ℤ)
  | status (s : CheckStatus)
  | severity (s : Severity)
  | null
  | list (vs : List RVal)
  | dict (fields : List (String × RVal))

/-- A result record: a Python dict keyed by strings. -/
abbrev RDict := List (String × RVal)

/-- Python `dict.get(k)`: first binding of the key, `none` when absent. -/
def rget (r : RDict) (k : String) : Option RVal :=
  (r.find? (fun p => p.1 = k)).map (fun p => p.2)

/-- A threshold mapping (e.g. `absolute_critical`, `delta_warning` keys),
as consumed by `BaseCheck._evaluate_threshold`. -/
abbrev Thresholds := List (String × ℚ)

/-- A raised Python exception: its class name and `str(e)` message. -/
structure PyErr where
  etype : String
  message : String
deriving DecidableEq, Repr

/-- The dict returned by `BaseCheck._evaluate_threshold`
(`status`/`severity`/`exceeded_threshold`). -/
structure Evaluation where
  status : CheckStatus
  severity : Severity
  exceeded_threshold : Option ℚ
deriving DecidableEq, Repr

/-- Does the comparison value exceed an optional threshold? A missing
threshold (`None`) never triggers (`if critical is not None` in the source). -/
def exceedsB (compareValue : ℚ) : Option ℚ → Bool
  | some t => compareValue > t
  | none => false

/-- `BaseCheck._evaluate_threshold` (checks/base.py): critical tier first,
then warning, strict `>` comparisons, `abs` applied for the delta kind. -/
def evaluateThreshold (value : ℚ) (thresholds : Thresholds)
    (thresholdType : String) : Evaluation :=
  let criticalV := thresholds.lookup (thresholdType ++ "_critical")
  let warningV := thresholds.lookup (thresholdType ++ "_warning")
  let compareValue := if thresholdType = "delta" then |value| else value
  if exceedsB compareValue criticalV then
    { status := .FAIL, severity := .CRITICAL, exceeded_threshold := criticalV }
  else if exceedsB compareValue warningV then
    { status := .WARNING, severity := .WARNING, exceeded_threshold := warningV }
  else
    { status := .PASS, severity := .INFO, exceeded_threshold := none }

/-- Round-half-to-even on rationals, the rounding mode of Python `round`. -/
def roundHalfEven (x : ℚ) : ℤ :=
  let f := ⌊x⌋
  if x - f < 1/2 then f
  else if x - f > 1/2 then f + 1
  else if f % 2 = 0 then f else f + 1

/-- Python `round(x, n)` modelled over exact rationals. -/
def pyRound (x : ℚ) (n : ℕ) : ℚ :=
  (roundHalfEven (x * 10 ^ n) : ℚ) / 10 ^ n

/-- A cell of the tabular dataset: a numeric value or null (pandas NaN). -/
abbrev Cell := Option ℚ

/-- One row: column name to cell. -/
abbrev Row := List (String × Cell)

/-- An in-memory table (pandas DataFrame). -/
structure Df where
  columns : List String
  rows : List Row

/-- The values of one column, `none` when the column is absent in a row. -/
def Df.colVals (df : Df) (c : String) : List Cell :=
  df.rows.map (fun r => (r.lookup c).join)

/-- The semantics of a `filter_condition` pandas-query string: evaluating it
either raises (invalid expression) or denotes a row predicate. -/
structure FilterCond where
  text : String
  sem : Except String (Row → Bool)

inductive ThVal where
  | num (q : ℚ)
  | range (lo hi : ℚ)
deriving DecidableEq, Repr

/-- Per-measure thresholds of the statistical check: scalar or `[min, max]`. -/
abbrev MeasureThresholds := List (String × ThVal)

/-- A per-column check configuration (a key/value mapping in the source; the
recognized options become structure fields, absent keys are the `.get`
defaults). `measure_thresholds` is the measure-keyed shape the statistical
check reads from the same `thresholds` config key. -/
structure ColConfig where
  enabled : Bool := true
  filter_condition : Option FilterCond := none
  thresholds : Thresholds := []
  column_alias : Option String := none
  description : Option String := none
  min_value : Option ℚ := none
  max_value : Option ℚ := none
  correlation_type : String := "temporal"
  correlation_with : Option String := none
  measures : List String := ["mean", "std", "median"]
  measure_thresholds : List (String × MeasureThresholds) := []

/-- `CheckConfiguration`: column name to per-column config. -/
abbrev CheckConfig := List (String × ColConfig)

def optStr : Option String → RVal
  | some s => .str s
  | none => .null

def optNum : Option ℚ → RVal
  | some q => .num q
  | none => .null

/-- The record value of a possibly-NaN metric after Python `round(x, n)`
(`round` propagates NaN). -/
def roundCell (v : Cell) (n : ℕ) : RVal :=
  match v with
  | some q => .num (pyRound q n)
  | none => .null

/-- `BaseCheck._create_result_record` (checks/base.py): the standardized
result record. `date` is passed already rendered (a date value or the
`now()` fallback string); `timestamp` threads `pd.Timestamp.now()`. -/
def createResultRecord (checkType : String) (config : ColConfig)
    (column : String) (date : RVal) (metricValue : Cell)
    (evaluation : Evaluation) (additionalMetrics : List (String × RVal))
    (timestamp : String) : RDict :=
  [("check_type", .str checkType),
   ("column", .str column),
   ("column_alias", optStr config.column_alias),
   ("date", date),
   ("filter_applied", optStr (config.filter_condition.map (fun f => f.text))),
   ("description", optStr config.description),
   ("metric_value", roundCell metricValue 6),
   ("thresholds", .dict (config.thresholds.map (fun p => (p.1, RVal.num p.2)))),
   ("status", .status evaluation.status),
   ("severity", .severity evaluation.severity),
   ("exceeded_threshold", optNum evaluation.exceeded_threshold),
   ("additional_metrics", .dict additionalMetrics),
   ("timestamp", .str timestamp)]

/-- `BaseCheck._handle_column_error` (checks/base.py): the ERROR record a
check emits for one failing column. -/
def handleColumnError (checkType : String) (column : String) (error : PyErr)
    (context : List (String × RVal)) : RDict :=
  [("check_type", .str checkType),
   ("column", .str column),
   ("status", .status .ERROR),
   ("severity", .severity .ERROR),
   ("error_message", .str error.message),
   ("error_type", .str error.etype),
   ("context", .dict context)]

/-- `CheckManager._handle_check_error`'s appended record
(managers/check_manager.py): one ERROR record per failing check type,
`column = None`. -/
def managerErrorRecord (checkType : String) (error : PyErr) : RDict :=
  [("check_type", .str checkType),
   ("column", .null),
   ("status", .status .ERROR),
   ("severity", .severity .ERROR),
   ("error_message", .str error.message),
   ("error_type", .str error.etype)]

/-- The per-measure record literal of `StatisticalCheck._check_column`
(checks/statistical.py lines 96-109). -/
def statMeasureRecord (column measure : String) (date : String)
    (value : ℚ) (status : CheckStatus) (severity : Severity)
    (exceeded : Option ThVal) (thresholds : MeasureThresholds)
    (timestamp : String) : RDict :=
  [("check_type", .str "statistical"),
   ("column", .str column),
   ("measure", .str measure),
   ("date", .str date),
   ("metric_value", .num (pyRound value 6)),
   ("status", .status status),
   ("severity", .severity severity),
   ("exceeded_threshold",
     match exceeded with
     | some (.num q) => .num q
     | some (.range lo hi) => .list [.num lo, .num hi]
     | none => .null),
   ("thresholds", .dict (thresholds.map (fun p =>
     (p.1, match p.2 with
           | .num q => RVal.num q
           | .range lo hi => RVal.list [.num lo, .num hi])))),
   ("timestamp", .str timestamp)]

/-- `BaseCheck._apply_filter` (checks/base.py): no condition passes the
frame through; an invalid condition raises `FilterError`. -/
def applyFilter (df : Df) : Option FilterCond → Except PyErr Df
  | none => .ok df
  | some fc =>
    match fc.sem with
    | .error _ => .error ⟨"FilterError", "Invalid filter: " ++ fc.text⟩
    | .ok p => .ok ⟨df.columns, df.rows.filter p⟩

/-- `BaseCheck._get_unique_dates` (checks/base.py): sorted unique non-null
dates of the date column (dates modelled as rationals, ISO rendering
abstracted; `sorted` modelled by insertion sort). -/
def getUniqueDates (df : Df) (dateCol : String) : List ℚ :=
  if dateCol ∈ df.columns then
    (((df.colVals dateCol).filterMap id).dedup).insertionSort (· ≤ ·)
  else []

/-- The record `date` field: last unique date, else the `now()` fallback. -/
def dateField (df : Df) (dateCol : String) (today : String) : RVal :=
  match (getUniqueDates df dateCol).getLast? with
  | some d => .num d
  | none => .str today

/-- ASCII lowercase of one character (`str.lower` acts per character). -/
def lowerChar (c : Char) : Char :=
  if 'A' ≤ c ∧ c ≤ 'Z' then Char.ofNat (c.toNat + 32) else c

/-- Python `str.lower()` on the ASCII identifiers used as column names. -/
def lowerStr (s : String) : String :=
  ⟨s.data.map lowerChar⟩

/-- `BaseCheck._normalize_dataframe`: lowercase all column names (the frame
is copied; Lean values are immutable, so copying is implicit). -/
def normalizeDf (df : Df) : Df :=
  ⟨df.columns.map lowerStr,
   df.rows.map (fun r => r.map (fun p => (lowerStr p.1, p.2)))⟩

/-- `BaseCheck._normalize_config`: lowercase configuration keys. -/
def normalizeConfig (cfg : CheckConfig) : CheckConfig :=
  cfg.map (fun p => (lowerStr p.1, p.2))

/-- The `run()` loop shared verbatim by all ten check variants
(e.g. checks/completeness.py lines 19-41): skip disabled columns, evaluate
each column inside `try/except`, converting any raised exception into the
`_handle_column_error` record. `checkColumn` is the variant's
`_check_column` body (returning one or, for the statistical check, several
records); its `Except.error` case is a raised Python exception. -/
def runColumns (checkType : String) (ctx : List (String × RVal))
    (checkColumn : String → ColConfig → Except PyErr (List RDict)) :
    CheckConfig → List RDict
  | [] => []
  | (column, config) :: rest =>
    if config.enabled then
      (match checkColumn column config with
       | .ok rs => rs
       | .error e => [handleColumnError checkType column e ctx])
        ++ runColumns checkType ctx checkColumn rest
    else runColumns checkType ctx checkColumn rest

/-- `CompletenessCheck._check_column` (checks/completeness.py): null
fraction of the (filtered) rows, evaluated against absolute thresholds.
`udf` is the unfiltered `self.df` used by `_get_unique_dates`. -/
def completenessCheckColumn (udf : Df) (dateCol : String)
    (today timestamp : String) (column : String) (config : ColConfig) :
    Except PyErr RDict :=
  match applyFilter udf config.filter_condition with
  | .error e => .error e
  | .ok df =>
    if column ∉ df.columns then
      .ok (handleColumnError "completeness" column
        ⟨"ValueError", "Column " ++ column ++ " not found in DataFrame"⟩
        [("available_columns", .list (df.columns.map RVal.str))])
    else
      let totalCount := df.rows.length
      let nullCount := (df.colVals column).count none
      let nullPercentage : ℚ :=
        if totalCount > 0 then (nullCount : ℚ) / (totalCount : ℚ) else 0
      let evaluation := evaluateThreshold nullPercentage config.thresholds "absolute"
      .ok (createResultRecord "completeness" config column
        (dateField udf dateCol today) (some nullPercentage) evaluation
        [("null_count", .int nullCount),
         ("total_count", .int totalCount),
         ("null_percentage", .num (pyRound (nullPercentage * 100) 2))]
        timestamp)

/-- `CompletenessCheck.run`, including the `BaseCheck.__init__`
normalization of column names and configuration keys. -/
def completenessRun (df : Df) (dateCol : String)
    (today timestamp : String) (cfg : CheckConfig) : List RDict :=
  runColumns "completeness" [("check", .str "completeness")]
    (fun c cc => (completenessCheckColumn (normalizeDf df) (lowerStr dateCol)
      today timestamp c cc).map (fun r => [r]))
    (normalizeConfig cfg)

/-- Rows of `duplicated(keep=False)`: values occurring more than once.
pandas treats nulls (NaN) as equal to each other here. -/
def duplicatedRows (vals : List Cell) : List Cell :=
  vals.filter (fun v => 2 ≤ vals.count v)

/-- `Series.nunique()` of the duplicated rows: distinct duplicated values,
nulls dropped (pandas `nunique` excludes NaN). -/
def nuniqueDuplicated (vals : List Cell) : ℕ :=
  ((duplicatedRows vals).filterMap id).dedup.length

/-- `duplicate_count` of `UniquenessCheck._check_column`
(checks/uniqueness.py line 69):
`duplicated_mask.sum() - df[column][duplicated_mask].nunique()`. -/
def duplicateCount (vals : List Cell) : ℕ :=
  (duplicatedRows vals).length - nuniqueDuplicated vals

/-- `UniquenessCheck._check_column` (checks/uniqueness.py). -/
def uniquenessCheckColumn (udf : Df) (dateCol : String)
    (today timestamp : String) (column : String) (config : ColConfig) :
    Except PyErr RDict :=
  match applyFilter udf config.filter_condition with
  | .error e => .error e
  | .ok df =>
    if column ∉ df.columns then
      .ok (handleColumnError "uniqueness" column
        ⟨"ValueError", "Column " ++ column ++ " not found in DataFrame"⟩
        [("available_columns", .list (df.columns.map RVal.str))])
    else
      let vals := df.colVals column
      let totalRows := df.rows.length
      let uniqueCount := (vals.filterMap id).dedup.length
      let dupCount := duplicateCount vals
      let duplicatedSample := (duplicatedRows vals).dedup.take 100
      let evaluation := evaluateThreshold (dupCount : ℚ) config.thresholds "absolute"
      .ok (createResultRecord "uniqueness" config column
        (dateField udf dateCol today) (some (dupCount : ℚ)) evaluation
        [("total_rows", .int totalRows),
         ("unique_count", .int uniqueCount),
         ("duplicate_count", .int dupCount),
         ("duplicate_percentage",
           if totalRows > 0 then
             .num (pyRound ((dupCount : ℚ) / (totalRows : ℚ) * 100) 2)
           else .int 0),
         ("duplicated_values_sample", .list (duplicatedSample.map (optNum ∘ id)))]
        timestamp)

/-- `UniquenessCheck.run` with `BaseCheck.__init__` normalization. -/
def uniquenessRun (df : Df) (dateCol : String)
    (today timestamp : String) (cfg : CheckConfig) : List RDict :=
  runColumns "uniqueness" [("check", .str "uniqueness")]
    (fun c cc => (uniquenessCheckColumn (normalizeDf df) (lowerStr dateCol)
      today timestamp c cc).map (fun r => [r]))
    (normalizeConfig cfg)

/-- Non-null values strictly below the optional lower bound
(`values[values < min_value]` when `min_value is not None`, else empty). -/
def belowMinVals (values : List ℚ) : Option ℚ → List ℚ
  | some m => values.filter (fun v => v < m)
  | none => []

/-- Non-null values strictly above the optional upper bound. -/
def aboveMaxVals (values : List ℚ) : Option ℚ → List ℚ
  | some m => values.filter (fun v => v > m)
  | none => []

/-- `out_of_range_count` of `RangeCheck._check_column`
(checks/range_check.py line 99). -/
def outOfRangeCount (values : List ℚ) (minV maxV : Option ℚ) : ℕ :=
  (belowMinVals values minV).length + (aboveMaxVals values maxV).length

/-- `RangeCheck._check_column` (checks/range_check.py). -/
def rangeCheckColumn (udf : Df) (dateCol : String)
    (today timestamp : String) (column : String) (config : ColConfig) :
    Except PyErr RDict :=
  match applyFilter udf config.filter_condition with
  | .error e => .error e
  | .ok df =>
    if column ∉ df.columns then
      .ok (handleColumnError "range" column
        ⟨"ValueError", "Column " ++ column ++ " not found in DataFrame"⟩
        [("available_columns", .list (df.columns.map RVal.str))])
    else
      let values := (df.colVals column).filterMap id
      let totalCount := values.length
      if totalCount = 0 then
        .ok (createResultRecord "range" config column (.str today) (some 0)
          ⟨.PASS, .INFO, none⟩
          [("out_of_range_count", .int 0),
           ("total_count", .int 0),
           ("message", .str "No non-null values to check")]
          timestamp)
      else
        let belowMin := belowMinVals values config.min_value
        let aboveMax := aboveMaxVals values config.max_value
        let oorCount := belowMin.length + aboveMax.length
        let oorPercentage : ℚ := (oorCount : ℚ) / (totalCount : ℚ)
        let evaluation : Evaluation :=
          if oorCount > 0 then ⟨.FAIL, .CRITICAL, none⟩ else ⟨.PASS, .INFO, none⟩
        .ok (createResultRecord "range" config column
          (dateField udf dateCol today) (some oorPercentage) evaluation
          [("out_of_range_count", .int oorCount),
           ("total_count", .int totalCount),
           ("out_of_range_percentage", .num (pyRound (oorPercentage * 100) 2)),
           ("dataset_min", optNum values.min?),
           ("dataset_max", optNum values.max?),
           ("configured_min", optNum config.min_value),
           ("configured_max", optNum config.max_value),
           ("below_min_sample", .list ((belowMin.take 100).map RVal.num)),
           ("above_max_sample", .list ((aboveMax.take 100).map RVal.num))]
          timestamp)

/-- `RangeCheck.run` with `BaseCheck.__init__` normalization. -/
def rangeRun (df : Df) (dateCol : String)
    (today timestamp : String) (cfg : CheckConfig) : List RDict :=
  runColumns "range" [("check", .str "range")]
    (fun c cc => (rangeCheckColumn (normalizeDf df) (lowerStr dateCol)
      today timestamp c cc).map (fun r => [r]))
    (normalizeConfig cfg)

/-- Sorted unique values of the date column of the (filtered) frame,
`sorted(df[self.date_col].unique())` in `CorrelationCheck._check_column`
(non-null dates; `sorted` modelled by insertion sort). -/
def sortedUniqueDates (df : Df) (dateCol : String) : List ℚ :=
  (((df.colVals dateCol).filterMap id).dedup).insertionSort (· ≤ ·)

/-- The `(id, value)` pairs of the rows having a given date
(`df[df[date_col] == d][[id_col, column]].set_index(id_col)`). -/
def idValuePairs (df : Df) (dateCol idCol column : String) (d : ℚ) :
    List (Cell × Cell) :=
  df.rows.filterMap (fun r =>
    if (r.lookup dateCol).join = some d then
      some ((r.lookup idCol).join, (r.lookup column).join)
    else none)

/-- The inner join on the id index
(`prev_values.join(curr_values, ..., how="inner")`): every prev row is
matched with every curr row carrying the same id key. -/
def innerJoin (prev curr : List (Cell × Cell)) : List (Cell × Cell) :=
  prev.flatMap (fun p =>
    (curr.filter (fun q => q.1 = p.1)).map (fun q => (p.2, q.2)))

/-- The PASS record the correlation check returns when the temporal data is
insufficient (metric 1.0, explanatory message; the source passes the
severity as the raw string "INFO", equal to the str-enum value). -/
def insufficientDataRecord (config : ColConfig) (column : String)
    (date : RVal) (message timestamp : String) : RDict :=
  createResultRecord "correlation" config column date (some 1)
    ⟨.PASS, .INFO, none⟩ [("message", .str message)] timestamp

/-- The inverted-polarity decision and final record of
`CorrelationCheck._check_column` (checks/correlation.py lines 104-128):
FAIL exactly when `abs(correlation) < critical` (a NaN correlation, modelled
as `none`, compares false and passes), `critical` defaulting to 0.8. -/
def correlationDecisionRecord (config : ColConfig) (column : String)
    (date : RVal) (correlationType : String) (correlation : Cell)
    (timestamp : String) : RDict :=
  let critical := (config.thresholds.lookup "absolute_critical").getD (4/5)
  let failB : Bool :=
    match correlation with
    | some r => |r| < critical
    | none => false
  let evaluation : Evaluation :=
    if failB then ⟨.FAIL, .CRITICAL, some critical⟩ else ⟨.PASS, .INFO, none⟩
  createResultRecord "correlation" config column date correlation evaluation
    [("correlation_type", .str correlationType),
     ("correlation_value", roundCell correlation 4)]
    timestamp

/-- `CorrelationCheck._check_column` (checks/correlation.py). `pearson`
abstracts `pandas.Series.corr` over the aligned value pairs (`none` is a
NaN result); its floating-point numerics are external to this core. -/
def correlationCheckColumn (pearson : List (Cell × Cell) → Cell)
    (udf : Df) (dateCol idCol : String) (today timestamp : String)
    (column : String) (config : ColConfig) : Except PyErr RDict :=
  match applyFilter udf config.filter_condition with
  | .error e => .error e
  | .ok df =>
    if column ∉ df.columns then
      .ok (handleColumnError "correlation" column
        ⟨"ValueError", "Column " ++ column ++ " not found"⟩ [])
    else
      let correlationType := config.correlation_type
      let date := dateField udf dateCol today
      if correlationType = "cross_column" then
        match config.correlation_with with
        | none =>
          .ok (handleColumnError "correlation" column
            ⟨"ValueError", "Correlation column None not found"⟩ [])
        | some otherColumn =>
          if otherColumn ∉ df.columns then
            .ok (handleColumnError "correlation" column
              ⟨"ValueError", "Correlation column " ++ otherColumn ++ " not found"⟩ [])
          else
            let correlation :=
              pearson ((df.colVals column).zip (df.colVals otherColumn))
            .ok (correlationDecisionRecord config column date correlationType
              correlation timestamp)
      else
        let sortedDates := sortedUniqueDates df dateCol
        if sortedDates.length < 2 then
          .ok (insufficientDataRecord config column date
            "Insufficient dates for temporal correlation" timestamp)
        else
          let prevDate := sortedDates[sortedDates.length - 2]?.getD 0
          let currDate := sortedDates.getLast?.getD 0
          let prevValues := idValuePairs df dateCol idCol column prevDate
          let currValues := idValuePairs df dateCol idCol column currDate
          let merged := innerJoin prevValues currValues
          if merged.length < 2 then
            .ok (insufficientDataRecord config column date
              "Insufficient matching records for correlation" timestamp)
          else
            .ok (correlationDecisionRecord config column date correlationType
              (pearson merged) timestamp)

/-- `CorrelationCheck.run` with `BaseCheck.__init__` normalization. -/
def correlationRun (pearson : List (Cell × Cell) → Cell) (df : Df)
    (dateCol idCol : String) (today timestamp : String)
    (cfg : CheckConfig) : List RDict :=
  runColumns "correlation" [("check", .str "correlation")]
    (fun c cc => (correlationCheckColumn pearson (normalizeDf df)
      (lowerStr dateCol) (lowerStr idCol) today timestamp c cc).map (fun r => [r]))
    (normalizeConfig cfg)

/-- The per-measure status decision of `StatisticalCheck._check_column`
(checks/statistical.py lines 80-94): a list threshold is an inclusive
`[min, max]` band, a scalar is a strict upper bound, absent means PASS. -/
def statMeasureDecision (value : ℚ) (thresholds : MeasureThresholds) :
    CheckStatus × Severity × Option ThVal :=
  match thresholds.lookup "absolute_critical" with
  | some (.range lo hi) =>
    if value < lo ∨ value > hi then (.FAIL, .CRITICAL, some (.range lo hi))
    else (.PASS, .INFO, none)
  | some (.num t) =>
    if value > t then (.FAIL, .CRITICAL, some (.num t))
    else (.PASS, .INFO, none)
  | none => (.PASS, .INFO, none)

/-- The measure loop of `StatisticalCheck._check_column` (lines 72-109):
one record per requested measure, unknown measure names silently skipped.
`stats` is the computed measure table (its numerics — mean, std, skew … —
are pandas library calls external to this core). -/
def statMeasureRecords (column : String) (date : String)
    (stats : List (String × ℚ)) (measures : List String)
    (measureThresholds : List (String × MeasureThresholds))
    (timestamp : String) : List RDict :=
  measures.filterMap (fun measure =>
    (stats.lookup measure).map (fun value =>
      let thresholds := (measureThresholds.lookup measure).getD []
      let d := statMeasureDecision value thresholds
      statMeasureRecord column measure date value d.1 d.2.1 d.2.2
        thresholds timestamp))

/-- The closed registry of `CheckManager._load_check_registry`: the ten
known check type names. -/
def registryNames : List String :=
  ["completeness", "uniqueness", "range", "turnover", "value_spike",
   "frequency", "correlation", "statistical", "distribution", "drift"]

/-- `CheckManager.run_single_check` (managers/check_manager.py lines
95-127): an unknown check type is logged and yields an empty frame; a known
one instantiates the check and calls its `run()`. `runImpl` stands for that
instantiation + `run()` call (it may raise, which the callers catch); `α`
is the opaque per-check-type configuration payload the manager passes
through. -/
def runSingleCheck {α : Type} (registry : List String)
    (runImpl : String → α → Except PyErr (List RDict))
    (checkType : String) (checkConfig : α) : Except PyErr (List RDict) :=
  if checkType ∈ registry then runImpl checkType checkConfig else .ok []

/-- One iteration of the result-accumulation loop shared by
`run_all_checks` and `run_all_checks_parallel`: extend `check_results` with
the returned records, or append the `_handle_check_error` record when the
check raised. -/
def processOutcome (acc : List RDict) (checkType : String)
    (outcome : Except PyErr (List RDict)) : List RDict :=
  match outcome with
  | .ok recs => acc ++ recs
  | .error e => acc ++ [managerErrorRecord checkType e]

/-- The final `self.check_results` after `CheckManager.run_all_checks`
(lines 73-93), starting from the manager's current accumulated `state`
(the list is a persistent instance attribute, never cleared). -/
def runAllChecksResults {α : Type} (registry : List String)
    (runImpl : String → α → Except PyErr (List RDict))
    (state : List RDict) (checksConfig : List (String × α)) : List RDict :=
  checksConfig.foldl
    (fun acc tc => processOutcome acc tc.1 (runSingleCheck registry runImpl tc.1 tc.2))
    state

/-- The final `self.check_results` after `CheckManager.run_all_checks_parallel`
(lines 129-162). All appends happen on the calling thread in `as_completed`
order, so the execution is the sequential loop over `completionOrder`, a
permutation of the configured check types chosen by the scheduler;
`maxWorkers` only bounds the pool and does not enter the data flow. -/
def runAllChecksParallelResults {α : Type} (registry : List String)
    (runImpl : String → α → Except PyErr (List RDict))
    (_maxWorkers : ℕ) (state : List RDict)
    (completionOrder : List (String × α)) : List RDict :=
  runAllChecksResults registry runImpl state completionOrder

/-- The summary dict of `CheckManager.get_summary_statistics`. -/
structure Summary where
  total : ℕ
  passed : ℕ
  warnings : ℕ
  failed : ℕ
  errors : ℕ
  pass_rate : ℚ
deriving DecidableEq, Repr

/-- `r.get('status') == CheckStatus.X` on a result record. -/
def hasStatus (s : CheckStatus) (r : RDict) : Bool :=
  match rget r "status" with
  | some (.status s') => s' = s
  | _ => false

/-- `sum(1 for r in results if r.get('status') == s)`. -/
def statusCount (s : CheckStatus) (results : List RDict) : ℕ :=
  (results.map (fun r => if hasStatus s r then 1 else 0)).sum

/-- `CheckManager.get_summary_statistics` (lines 213-246): counts by status
and `pass_rate = round(passed / total * 100, 1)`, with the zero-results
early return guarding the division. -/
def getSummaryStatistics (results : List RDict) : Summary :=
  let total := results.length
  if total = 0 then
    { total := 0, passed := 0, warnings := 0, failed := 0, errors := 0,
      pass_rate := 0 }
  else
    let passed := statusCount .PASS results
    let warnings := statusCount .WARNING results
    let failed := statusCount .FAIL results
    let errors := statusCount .ERROR results
    let passRate : ℚ :=
      if total > 0 then (passed : ℚ) / (total : ℚ) * 100 else 0
    { total := total, passed := passed, warnings := warnings,
      failed := failed, errors := errors, pass_rate := pyRound passRate 1 }

/-- `result.get('check_type', 'unknown')` (every record built by this core
stores a string there). -/
def typeKey (r : RDict) : String :=
  match rget r "check_type" with
  | some (.str t) => t
  | _ => "unknown"

/-- Insert one record into the grouped mapping, appending to the existing
key's list or adding a new key at the end (Python dict insertion order). -/
def addToGroup : List (String × List RDict) → String → RDict →
    List (String × List RDict)
  | [], t, r => [(t, [r])]
  | (k, g) :: rest, t, r =>
    if k = t then (k, g ++ [r]) :: rest else (k, g) :: addToGroup rest t r

/-- `CheckManager._group_results_by_type` (lines 198-211). -/
def groupResultsByType (results : List RDict) : List (String × List RDict) :=
  results.foldl (fun grouped r => addToGroup grouped (typeKey r) r) []

/-- The number of records grouped under one check-type key (0 when the key
is absent). -/
def groupCount (grouped : List (String × List RDict)) (t : String) : ℕ :=
  match grouped.lookup t with
  | some g => g.length
  | none => 0

/-- The `AggregatedResults` dict of `CheckManager.aggregate_results`. -/
structure AggregatedResults where
  metadata : List (String × String)
  summary : Summary
  results : List RDict
  results_by_type : List (String × List RDict)

/-- `CheckManager.aggregate_results` (lines 182-196): built entirely from
the accumulated `check_results`. -/
def aggregateResults (metadata : List (String × String))
    (checkResults : List RDict) : AggregatedResults :=
  { metadata := metadata,
    summary := getSummaryStatistics checkResults,
    results := checkResults,
    results_by_type := groupResultsByType checkResults }

/-- `CheckManager.run_all_checks`: the dict it returns together with the
manager's updated `check_results` state (explicit state passing). -/
def runAllChecks {α : Type} (registry : List String)
    (runImpl : String → α → Except PyErr (List RDict))
    (metadata : List (String × String)) (state : List RDict)
    (checksConfig : List (String × α)) :
    List RDict × AggregatedResults :=
  let state' := runAllChecksResults registry runImpl state checksConfig
  (state', aggregateResults metadata state')

/-- C2: for every numeric value `v`, threshold mapping and kind in
{absolute, delta}, `_evaluate_threshold` compares `c_v = |v|` for delta and
`c_v = v` otherwise; a present critical threshold with `c_v > critical`
gives FAIL/CRITICAL/exceeded=critical, otherwise a present warning
threshold with `c_v > warning` gives WARNING/WARNING/exceeded=warning,
otherwise PASS/INFO/exceeded=null; critical is checked strictly before
warning, comparisons are strict, and a missing key imposes no limit. -/
theorem evaluateThreshold_tiers (v : ℚ) (th : Thresholds) (kind : String)
    (_hkind : kind = "absolute" ∨ kind = "delta") :
    (∀ c, th.lookup (kind ++ "_critical") = some c →
      (if kind = "delta" then |v| else v) > c →
      evaluateThreshold v th kind = ⟨.FAIL, .CRITICAL, some c⟩)
    ∧ (∀ w, (∀ c, th.lookup (kind ++ "_critical") = some c →
        (if kind = "delta" then |v| else v) ≤ c) →
      th.lookup (kind ++ "_warning") = some w →
      (if kind = "delta" then |v| else v) > w →
      evaluateThreshold v th kind = ⟨.WARNING, .WARNING, some w⟩)
    ∧ ((∀ c, th.lookup (kind ++ "_critical") = some c →
        (if kind = "delta" then |v| else v) ≤ c) →
      (∀ w, th.lookup (kind ++ "_warning") = some w →
        (if kind = "delta" then |v| else v) ≤ w) →
      evaluateThreshold v th kind = ⟨.PASS, .INFO, none⟩) := by
  refine ⟨?_, ?_, ?_⟩
  · intro c hc hgt
    simp only [evaluateThreshold, hc, exceedsB]
    rw [if_pos (by simpa using hgt)]
  · intro w hcle hw hgt
    simp only [evaluateThreshold, hw, exceedsB]
    cases hc : th.lookup (kind ++ "_critical") with
    | none =>
      simp only [hc]
      rw [if_neg (by simp), if_pos (by simpa using hgt)]
    | some c =>
      simp only [hc]
      rw [if_neg (by simpa using not_lt.2 (hcle c hc)),
        if_pos (by simpa using hgt)]
  · intro hcle hwle
    simp only [evaluateThreshold, exceedsB]
    cases hc : th.lookup (kind ++ "_critical") with
    | none =>
      cases hw : th.lookup (kind ++ "_warning") with
      | none => simp
      | some w =>
        rw [if_neg (by simp), if_neg (by simpa using not_lt.2 (hwle w hw))]
    | some c =>
      cases hw : th.lookup (kind ++ "_warning") with
      | none =>
        rw [if_neg (by simpa using not_lt.2 (hcle c hc)), if_neg (by simp)]
      | some w =>
        rw [if_neg (by simpa using not_lt.2 (hcle c hc)),
          if_neg (by simpa using not_lt.2 (hwle w hw))]

/-- Witness for `evaluateThreshold_tiers` at `v = 3`, thresholds
critical 2 / warning 1, absolute kind: the critical tier fires. -/
theorem evaluateThreshold_tiers_witness :
    evaluateThreshold 3 [("absolute_critical", 2), ("absolute_warning", 1)]
      "absolute" = ⟨.FAIL, .CRITICAL, some 2⟩ :=
  (evaluateThreshold_tiers 3
    [("absolute_critical", 2), ("absolute_warning", 1)] "absolute"
    (Or.inl rfl)).1 2 (by decide) (by norm_num)

/-- `sum(1 for r in results if cond)` equals `countP`. -/
theorem statusCount_eq_countP (s : CheckStatus) (l : List RDict) :
    statusCount s l = l.countP (hasStatus s) := by
  induction l with
  | nil => rfl
  | cons r t ih =>
    simp only [statusCount, List.map_cons, List.sum_cons, List.countP_cons]
    cases h : hasStatus s r <;>
      simp [h, ← ih, statusCount, Nat.add_comm]

/-- C4: `get_summary_statistics` returns `total = len(results)`, the four
per-status counts, and `pass_rate = round(passed / total * 100, 1)`; on
zero accumulated results it returns the all-zero summary with no division
(the division is modelled over exact rationals). -/
theorem getSummaryStatistics_spec (results : List RDict) :
    getSummaryStatistics results =
      { total := results.length,
        passed := results.countP (hasStatus .PASS),
        warnings := results.countP (hasStatus .WARNING),
        failed := results.countP (hasStatus .FAIL),
        errors := results.countP (hasStatus .ERROR),
        pass_rate :=
          if results.length = 0 then 0
          else pyRound ((results.countP (hasStatus .PASS) : ℚ)
            / (results.length : ℚ) * 100) 1 }
    ∧ getSummaryStatistics ([] : List RDict) =
      { total := 0, passed := 0, warnings := 0, failed := 0, errors := 0,
        pass_rate := 0 } := by
  constructor
  · by_cases h : results.length = 0
    · rw [List.length_eq_zero] at h
      subst h
      simp [getSummaryStatistics]
    · simp [getSummaryStatistics, statusCount_eq_countP, h,
        Nat.pos_of_ne_zero h]
  · rfl

/-- The records one configured check type contributes to `check_results`. -/
def contribution {α : Type} (registry : List String)
    (runImpl : String → α → Except PyErr (List RDict))
    (tc : String × α) : List RDict :=
  match runSingleCheck registry runImpl tc.1 tc.2 with
  | .ok recs => recs
  | .error e => [managerErrorRecord tc.1 e]

theorem processOutcome_runSingle {α : Type} (registry : List String)
    (runImpl : String → α → Except PyErr (List RDict))
    (acc : List RDict) (tc : String × α) :
    processOutcome acc tc.1 (runSingleCheck registry runImpl tc.1 tc.2)
      = acc ++ contribution registry runImpl tc := by
  cases h : runSingleCheck registry runImpl tc.1 tc.2 <;>
    simp [processOutcome, contribution, h]

/-- The accumulation loop is the flattened per-check-type contributions
appended to the prior state. -/
theorem runAllChecksResults_eq_flatten {α : Type} (registry : List String)
    (runImpl : String → α → Except PyErr (List RDict))
    (state : List RDict) (checksConfig : List (String × α)) :
    runAllChecksResults registry runImpl state checksConfig
      = state ++ (checksConfig.map (contribution registry runImpl)).flatten := by
  induction checksConfig generalizing state with
  | nil => simp [runAllChecksResults]
  | cons tc rest ih =>
    simp only [runAllChecksResults, List.foldl_cons] at *
    rw [processOutcome_runSingle, ih, List.map_cons, List.flatten_cons,
      List.append_assoc]

theorem getSummaryStatistics_perm {l₁ l₂ : List RDict} (h : l₁.Perm l₂) :
    getSummaryStatistics l₁ = getSummaryStatistics l₂ := by
  simp only [getSummaryStatistics, statusCount_eq_countP, h.length_eq,
    List.Perm.countP_eq _ h]

theorem lookup_cons_self {β : Type} (k : String) (v : β)
    (rest : List (String × β)) : ((k, v) :: rest).lookup k = some v := by
  simp [List.lookup]

theorem lookup_cons_ne {β : Type} (k t : String) (v : β)
    (rest : List (String × β)) (h : ¬t = k) :
    ((k, v) :: rest).lookup t = rest.lookup t := by
  simp [List.lookup, beq_eq_false_iff_ne.mpr h]

theorem lookup_mem_of_eq_some {β : Type} {g : List (String × β)}
    {t : String} {v : β} (h : g.lookup t = some v) : (t, v) ∈ g := by
  induction g with
  | nil => simp [List.lookup] at h
  | cons p rest ih =>
    obtain ⟨k, w⟩ := p
    by_cases hk : t = k
    · subst hk
      rw [lookup_cons_self] at h
      simp only [Option.some_inj] at h
      subst h
      exact List.mem_cons_self _ _
    · rw [lookup_cons_ne _ _ _ _ hk] at h
      exact List.mem_cons_of_mem _ (ih h)

theorem addToGroup_lookup (g : List (String × List RDict)) (t t' : String)
    (r : RDict) :
    (addToGroup g t r).lookup t'
      = if t' = t then some (((g.lookup t).getD []) ++ [r])
        else g.lookup t' := by
  induction g with
  | nil =>
    by_cases h : t' = t
    · subst h
      show ([(t', [r])] : List (String × List RDict)).lookup t' = _
      rw [lookup_cons_self, if_pos rfl]
      rfl
    · show ([(t, [r])] : List (String × List RDict)).lookup t' = _
      rw [lookup_cons_ne _ _ _ _ h, if_neg h]
  | cons p rest ih =>
    obtain ⟨k, v⟩ := p
    by_cases hk : k = t
    · subst hk
      have h1 : addToGroup ((k, v) :: rest) k r
          = (k, v ++ [r]) :: rest := by
        simp [addToGroup]
      by_cases h : t' = k
      · subst h
        rw [h1, lookup_cons_self, lookup_cons_self, if_pos rfl]
        rfl
      · rw [h1, lookup_cons_ne _ _ _ _ h, lookup_cons_ne _ _ _ _ h, if_neg h]
    · have h1 : addToGroup ((k, v) :: rest) t r
          = (k, v) :: addToGroup rest t r := by
        simp [addToGroup, hk]
      by_cases h : t' = k
      · subst h
        rw [h1, lookup_cons_self, lookup_cons_self, if_neg hk]
      · rw [h1, lookup_cons_ne _ _ _ _ h, ih]
        by_cases ht : t' = t
        · subst ht
          rw [if_pos rfl, if_pos rfl,
            lookup_cons_ne _ _ _ _ (fun hh => hk hh.symm)]
        · rw [if_neg ht, if_neg ht, lookup_cons_ne _ _ _ _ h]

theorem groupCount_addToGroup (g : List (String × List RDict))
    (t t' : String) (r : RDict) :
    groupCount (addToGroup g t r) t'
      = groupCount g t' + (if t' = t then 1 else 0) := by
  by_cases h : t' = t
  · subst h
    simp only [groupCount, addToGroup_lookup, if_pos rfl]
    cases hg : g.lookup t' <;> simp [hg]
  · simp [groupCount, addToGroup_lookup, h]

theorem groupCount_foldl (rs : List RDict) (acc : List (String × List RDict))
    (t : String) :
    groupCount (rs.foldl (fun grouped r => addToGroup grouped (typeKey r) r) acc) t
      = groupCount acc t + rs.countP (fun r => typeKey r = t) := by
  induction rs generalizing acc with
  | nil => simp
  | cons r rest ih =>
    simp only [List.foldl_cons, ih, groupCount_addToGroup, List.countP_cons]
    by_cases h : typeKey r = t
    · simp only [h, if_pos rfl]
      simp
      omega
    · have h2 : ¬t = typeKey r := fun hh => h hh.symm
      simp [h, h2]

/-- Per-type group sizes are the per-type record counts. -/
theorem groupCount_eq_countP (rs : List RDict) (t : String) :
    groupCount (groupResultsByType rs) t = rs.countP (fun r => typeKey r = t) := by
  simpa [groupResultsByType, groupCount] using groupCount_foldl rs [] t

theorem mem_keys_iff_lookup_isSome (g : List (String × List RDict))
    (t : String) :
    t ∈ g.map Prod.fst ↔ (g.lookup t).isSome := by
  induction g with
  | nil => simp [List.lookup]
  | cons p rest ih =>
    obtain ⟨k, v⟩ := p
    by_cases h : t = k
    · subst h
      simp [lookup_cons_self]
    · rw [lookup_cons_ne _ _ _ _ h]
      simp [h, ih]

theorem addToGroup_values_nonempty (g : List (String × List RDict))
    (t : String) (r : RDict) (hg : ∀ p ∈ g, p.2 ≠ []) :
    ∀ p ∈ addToGroup g t r, p.2 ≠ [] := by
  induction g with
  | nil =>
    intro p hp
    simp only [addToGroup, List.mem_singleton] at hp
    subst hp
    simp
  | cons q grest ihg =>
    obtain ⟨k, v⟩ := q
    intro p hp
    by_cases hk : k = t
    · subst hk
      have he : addToGroup ((k, v) :: grest) k r = (k, v ++ [r]) :: grest := by
        simp [addToGroup]
      rw [he] at hp
      rcases List.mem_cons.1 hp with h1 | h2
      · subst h1; simp
      · exact hg p (List.mem_cons_of_mem _ h2)
    · have he : addToGroup ((k, v) :: grest) t r
          = (k, v) :: addToGroup grest t r := by
        simp [addToGroup, hk]
      rw [he] at hp
      rcases List.mem_cons.1 hp with h1 | h2
      · subst h1
        exact hg _ (List.mem_cons_self _ _)
      · exact ihg (fun q hq => hg q (List.mem_cons_of_mem _ hq)) p h2

theorem groupResultsByType_values_nonempty (rs : List RDict) :
    ∀ p ∈ groupResultsByType rs, p.2 ≠ [] := by
  have main : ∀ (l : List RDict) (acc : List (String × List RDict)),
      (∀ p ∈ acc, p.2 ≠ []) →
      ∀ p ∈ l.foldl (fun grouped r => addToGroup grouped (typeKey r) r) acc,
        p.2 ≠ [] := by
    intro l
    induction l with
    | nil => intro acc hacc; simpa using hacc
    | cons r rest ih =>
      intro acc hacc
      simp only [List.foldl_cons]
      exact ih _ (addToGroup_values_nonempty acc (typeKey r) r hacc)
  exact main rs [] (by simp)

/-- A check-type key appears in the grouping iff some record carries it. -/
theorem mem_groupKeys_iff_countP_pos (rs : List RDict) (t : String) :
    t ∈ (groupResultsByType rs).map Prod.fst
      ↔ 0 < rs.countP (fun r => typeKey r = t) := by
  rw [mem_keys_iff_lookup_isSome, ← groupCount_eq_countP]
  constructor
  · intro h
    obtain ⟨g, hg⟩ := Option.isSome_iff_exists.1 h
    have hne : g ≠ [] := by
      simpa using groupResultsByType_values_nonempty rs (t, g)
        (lookup_mem_of_eq_some hg)
    simp [groupCount, hg, List.length_pos.2 hne]
  · intro h
    cases hg : (groupResultsByType rs).lookup t with
    | none => simp [groupCount, hg] at h
    | some g => simp [hg]

/-- C3: for every dataset/config (abstracted as `runImpl` plus the
configured check types) and every worker count `k ≥ 1`,
`run_all_checks_parallel(k)` — whose record appends happen on the calling
thread in an arbitrary `as_completed` completion order, modelled as a
permutation of the configured types — produces the same summary
(total/passed/warnings/failed/errors and pass rate), the same
`results_by_type` key set, and the same per-key record counts as the
sequential `run_all_checks` on the same inputs; per-check-type failures are
isolated by the identical `_handle_check_error` path in both loops. -/
theorem runAllChecksParallel_equiv {α : Type} (registry : List String)
    (runImpl : String → α → Except PyErr (List RDict))
    (checksConfig completionOrder : List (String × α)) (maxWorkers : ℕ)
    (_hk : 1 ≤ maxWorkers) (hperm : completionOrder.Perm checksConfig) :
    getSummaryStatistics
        (runAllChecksParallelResults registry runImpl maxWorkers [] completionOrder)
      = getSummaryStatistics (runAllChecksResults registry runImpl [] checksConfig)
    ∧ (∀ t, t ∈ (groupResultsByType (runAllChecksParallelResults registry
          runImpl maxWorkers [] completionOrder)).map Prod.fst
        ↔ t ∈ (groupResultsByType (runAllChecksResults registry runImpl []
          checksConfig)).map Prod.fst)
    ∧ (∀ t, groupCount (groupResultsByType (runAllChecksParallelResults
          registry runImpl maxWorkers [] completionOrder)) t
        = groupCount (groupResultsByType (runAllChecksResults registry
          runImpl [] checksConfig)) t) := by
  have hpermR : (runAllChecksParallelResults registry runImpl maxWorkers []
      completionOrder).Perm (runAllChecksResults registry runImpl [] checksConfig) := by
    rw [runAllChecksParallelResults, runAllChecksResults_eq_flatten,
      runAllChecksResults_eq_flatten]
    simpa using (hperm.map (contribution registry runImpl)).flatten
  refine ⟨getSummaryStatistics_perm hpermR, ?_, ?_⟩
  · intro t
    rw [mem_groupKeys_iff_countP_pos, mem_groupKeys_iff_countP_pos,
      List.Perm.countP_eq _ hpermR]
  · intro t
    rw [groupCount_eq_countP, groupCount_eq_countP,
      List.Perm.countP_eq _ hpermR]

/-- A small `runImpl` used to witness the manager theorems: `n` PASS
records for a type, an exception when `n = 0`. -/
def wRunImpl : String → ℕ → Except PyErr (List RDict) :=
  fun checkType n =>
    if n = 0 then .error ⟨"ValueError", "boom"⟩
    else .ok (List.replicate n
      [("check_type", RVal.str checkType), ("status", RVal.status .PASS)])

/-- Witness for `runAllChecksParallel_equiv`: three configured types (one
raising, one unknown) run with 2 workers in reversed completion order. -/
theorem runAllChecksParallel_equiv_witness :
    getSummaryStatistics (runAllChecksParallelResults registryNames wRunImpl 2 []
        [("frequency", 3), ("uniqueness", 0), ("completeness", 1)])
      = getSummaryStatistics (runAllChecksResults registryNames wRunImpl []
        [("completeness", 1), ("uniqueness", 0), ("frequency", 3)])
    ∧ (∀ t, t ∈ (groupResultsByType (runAllChecksParallelResults registryNames
          wRunImpl 2 [] [("frequency", 3), ("uniqueness", 0),
            ("completeness", 1)])).map Prod.fst
        ↔ t ∈ (groupResultsByType (runAllChecksResults registryNames wRunImpl []
          [("completeness", 1), ("uniqueness", 0),
            ("frequency", 3)])).map Prod.fst)
    ∧ (∀ t, groupCount (groupResultsByType (runAllChecksParallelResults
          registryNames wRunImpl 2 [] [("frequency", 3), ("uniqueness", 0),
            ("completeness", 1)])) t
        = groupCount (groupResultsByType (runAllChecksResults registryNames
          wRunImpl [] [("completeness", 1), ("uniqueness", 0),
            ("frequency", 3)])) t) :=
  runAllChecksParallel_equiv registryNames wRunImpl
    [("completeness", 1), ("uniqueness", 0), ("frequency", 3)]
    [("frequency", 3), ("uniqueness", 0), ("completeness", 1)]
    2 (by decide) (by decide)

/-- C9: a configured check-type name outside the closed ten-name registry
is silently skipped by the accumulation loop: the final result list equals
the one for the configuration with that entry removed — it contributes zero
records, no ERROR record is synthesized for it, and every known configured
check type still contributes exactly as before. -/
theorem unknownCheckType_skipped {α : Type}
    (runImpl : String → α → Except PyErr (List RDict)) (state : List RDict)
    (pre post : List (String × α)) (u : String) (ucfg : α)
    (hu : u ∉ registryNames) :
    runAllChecksResults registryNames runImpl state (pre ++ (u, ucfg) :: post)
      = runAllChecksResults registryNames runImpl state (pre ++ post) := by
  rw [runAllChecksResults_eq_flatten, runAllChecksResults_eq_flatten]
  have hc : contribution registryNames runImpl (u, ucfg) = [] := by
    simp [contribution, runSingleCheck, hu]
  simp [hc]

/-- Witness for `unknownCheckType_skipped`: the unknown type
`"bogus_type"` between two known types contributes nothing. -/
theorem unknownCheckType_skipped_witness :
    runAllChecksResults registryNames wRunImpl []
        ([("completeness", 1)] ++ ("bogus_type", 5) :: [("uniqueness", 2)])
      = runAllChecksResults registryNames wRunImpl []
        ([("completeness", 1)] ++ [("uniqueness", 2)]) :=
  unknownCheckType_skipped wRunImpl [] [("completeness", 1)]
    [("uniqueness", 2)] "bogus_type" 5 (by decide)

/-- A concrete two-row dataset for the manager counterexample. -/
def sampleDf : Df :=
  ⟨["id", "date", "value"],
   [[("id", some 1), ("date", some 1), ("value", some 10)],
    [("id", some 2), ("date", some 1), ("value", none)]]⟩

def sampleMetadata : List (String × String) :=
  [("date_column", "date"), ("id_column", "id")]

def sampleChecksConfig : List (String × CheckConfig) :=
  [("completeness", [("value", { thresholds := [("absolute_critical", 1)] })])]

/-- The manager's per-type dispatch for `sampleChecksConfig`: instantiating
`CompletenessCheck` on `sampleDf` and calling its `run()`. -/
def sampleRunImpl : String → CheckConfig → Except PyErr (List RDict) :=
  fun checkType cfg =>
    if checkType = "completeness" then
      .ok (completenessRun sampleDf "date" "2024-01-01" "2024-01-01T00:00:00" cfg)
    else .ok []

/-- C10 counterexample: on an unchanged manager (same dataset and config),
a second `run_all_checks()` does not return the first call's
`AggregatedResults` — `check_results` persists on the instance, so the
second summary counts 2 records where the first counted 1. -/
theorem runAllChecks_second_call_differs :
    (runAllChecks registryNames sampleRunImpl sampleMetadata
        (runAllChecks registryNames sampleRunImpl sampleMetadata []
          sampleChecksConfig).1
        sampleChecksConfig).2.summary.total = 2
    ∧ (runAllChecks registryNames sampleRunImpl sampleMetadata []
        sampleChecksConfig).2.summary.total = 1
    ∧ (runAllChecks registryNames sampleRunImpl sampleMetadata
        (runAllChecks registryNames sampleRunImpl sampleMetadata []
          sampleChecksConfig).1
        sampleChecksConfig).2
      ≠ (runAllChecks registryNames sampleRunImpl sampleMetadata []
        sampleChecksConfig).2 := by
  have h1 : (runAllChecks registryNames sampleRunImpl sampleMetadata
      (runAllChecks registryNames sampleRunImpl sampleMetadata []
        sampleChecksConfig).1
      sampleChecksConfig).2.summary.total = 2 := by rfl
  have h2 : (runAllChecks registryNames sampleRunImpl sampleMetadata []
      sampleChecksConfig).2.summary.total = 1 := by rfl
  refine ⟨h1, h2, fun h => ?_⟩
  have h3 := congrArg (fun a : AggregatedResults => a.summary.total) h
  simp only [h1, h2] at h3
  exact absurd h3 (by decide)

/-- C10 amended: `aggregate_results` is rebuilt from the accumulated
record list on every call, but that list is a persistent manager attribute:
`run_all_checks` appends to the prior state, so a second call with
unchanged inputs returns an `AggregatedResults` over the concatenation of
both runs' records (first-run records carry over) rather than the first
call's value. -/
theorem runAllChecks_state_carried {α : Type} (registry : List String)
    (runImpl : String → α → Except PyErr (List RDict))
    (metadata : List (String × String)) (state : List RDict)
    (checksConfig : List (String × α)) :
    runAllChecksResults registry runImpl state checksConfig
      = state ++ runAllChecksResults registry runImpl [] checksConfig
    ∧ (runAllChecks registry runImpl metadata
        (runAllChecks registry runImpl metadata [] checksConfig).1
        checksConfig).2.results
      = runAllChecksResults registry runImpl [] checksConfig
        ++ runAllChecksResults registry runImpl [] checksConfig := by
  have key : ∀ s, runAllChecksResults registry runImpl s checksConfig
      = s ++ runAllChecksResults registry runImpl [] checksConfig := by
    intro s
    rw [runAllChecksResults_eq_flatten, runAllChecksResults_eq_flatten]
    simp
  refine ⟨key state, ?_⟩
  show runAllChecksResults registry runImpl
      (runAllChecksResults registry runImpl [] checksConfig) checksConfig = _
  exact key _

theorem runColumns_append (checkType : String) (ctx : List (String × RVal))
    (checkColumn : String → ColConfig → Except PyErr (List RDict))
    (a b : CheckConfig) :
    runColumns checkType ctx checkColumn (a ++ b)
      = runColumns checkType ctx checkColumn a
        ++ runColumns checkType ctx checkColumn b := by
  induction a with
  | nil => simp [runColumns]
  | cons p rest ih =>
    obtain ⟨column, config⟩ := p
    cases hc : config.enabled <;>
      simp [runColumns, hc, ih, List.append_assoc]

/-- C1: the `run()` loop shared by all ten check variants is total for
every per-column evaluator `checkColumn` (the `try/except` is the `match`
on its outcome, so no column-level exception escapes): each enabled
configured column contributes its own records independently of the others,
and a column whose evaluation raises (invalid filter, missing column, or
any other exception) contributes exactly the `_handle_column_error` record
for that column — ERROR status, the failing column name — while every
other configured column's records are still produced unchanged. -/
theorem run_isolates_column_errors (checkType : String)
    (ctx : List (String × RVal))
    (checkColumn : String → ColConfig → Except PyErr (List RDict))
    (pre post : CheckConfig) (column : String) (config : ColConfig)
    (henabled : config.enabled = true) :
    runColumns checkType ctx checkColumn (pre ++ (column, config) :: post)
      = runColumns checkType ctx checkColumn pre
        ++ ((match checkColumn column config with
             | .ok rs => rs
             | .error e => [handleColumnError checkType column e ctx])
          ++ runColumns checkType ctx checkColumn post)
    ∧ ∀ e, checkColumn column config = .error e →
        rget (handleColumnError checkType column e ctx) "status"
            = some (.status .ERROR)
        ∧ rget (handleColumnError checkType column e ctx) "column"
            = some (.str column)
        ∧ rget (handleColumnError checkType column e ctx) "check_type"
            = some (.str checkType) := by
  constructor
  · rw [runColumns_append]
    congr 1
    show runColumns checkType ctx checkColumn ((column, config) :: post) = _
    simp [runColumns, henabled]
  · intro e _
    exact ⟨rfl, rfl, rfl⟩

/-- A column configuration whose filter expression is invalid (its
evaluation raises). -/
def wBadCfg : ColConfig :=
  { filter_condition := some ⟨"bad ==", .error "invalid syntax"⟩ }

def wGoodCfg : ColConfig := { thresholds := [("absolute_critical", 1)] }

/-- The completeness `_check_column` evaluator over `sampleDf`, as
`CompletenessCheck.run` wires it. -/
def wCheckColumn : String → ColConfig → Except PyErr (List RDict) :=
  fun c cc => (completenessCheckColumn (normalizeDf sampleDf)
    (lowerStr "date") "2024-01-01" "2024-01-01T00:00:00" c cc).map
      (fun r => [r])

/-- Witness for `run_isolates_column_errors`: on the completeness check,
a good column followed by a column with an invalid filter. -/
theorem run_isolates_column_errors_witness :
    runColumns "completeness" [("check", RVal.str "completeness")]
        wCheckColumn ([("value", wGoodCfg)] ++ ("id", wBadCfg) :: [])
      = runColumns "completeness" [("check", RVal.str "completeness")]
          wCheckColumn [("value", wGoodCfg)]
        ++ ((match wCheckColumn "id" wBadCfg with
             | .ok rs => rs
             | .error e => [handleColumnError "completeness" "id" e
                 [("check", RVal.str "completeness")]])
          ++ runColumns "completeness" [("check", RVal.str "completeness")]
              wCheckColumn [])
    ∧ ∀ e, wCheckColumn "id" wBadCfg = .error e →
        rget (handleColumnError "completeness" "id" e
            [("check", RVal.str "completeness")]) "status"
            = some (.status .ERROR)
        ∧ rget (handleColumnError "completeness" "id" e
            [("check", RVal.str "completeness")]) "column"
            = some (.str "id")
        ∧ rget (handleColumnError "completeness" "id" e
            [("check", RVal.str "completeness")]) "check_type"
            = some (.str "completeness") :=
  run_isolates_column_errors "completeness"
    [("check", RVal.str "completeness")] wCheckColumn
    [("value", wGoodCfg)] [] "id" wBadCfg rfl

/-- C5 counterexample: the engine's ERROR records do not carry the
invariant fields — the record `CompletenessCheck.run` emits for a column
with an invalid filter has no `date`, `metric_value`, `thresholds` or
`timestamp` key (and no echoed config/additional_metrics either), refuting
the claim that every produced record contains them. -/
theorem errorRecord_missing_fields_cex :
    completenessRun sampleDf "date" "2024-01-01" "2024-01-01T00:00:00"
        [("value", wBadCfg)]
      = [handleColumnError "completeness" "value"
          ⟨"FilterError", "Invalid filter: bad =="⟩
          [("check", .str "completeness")]]
    ∧ rget (handleColumnError "completeness" "value"
        ⟨"FilterError", "Invalid filter: bad =="⟩
        [("check", .str "completeness")]) "date" = none
    ∧ rget (handleColumnError "completeness" "value"
        ⟨"FilterError", "Invalid filter: bad =="⟩
        [("check", .str "completeness")]) "metric_value" = none
    ∧ rget (handleColumnError "completeness" "value"
        ⟨"FilterError", "Invalid filter: bad =="⟩
        [("check", .str "completeness")]) "thresholds" = none
    ∧ rget (handleColumnError "completeness" "value"
        ⟨"FilterError", "Invalid filter: bad =="⟩
        [("check", .str "completeness")]) "timestamp" = none :=
  ⟨rfl, rfl, rfl, rfl, rfl⟩

/-- C5 amended: records built by `_create_result_record` carry exactly the
thirteen invariant + echoed-config fields, with `status`/`severity` drawn
from the closed enums; ERROR records instead carry only
check_type/column/status/severity/error_message/error_type (plus `context`
at column level, with `column = None` at manager level); and the
statistical check's per-measure records carry their own ten-field schema
without `additional_metrics` or the echoed config. -/
theorem resultRecord_fields_amended :
    (∀ (checkType : String) (config : ColConfig) (column : String)
        (date : RVal) (mv : Cell) (ev : Evaluation)
        (am : List (String × RVal)) (ts : String),
      (createResultRecord checkType config column date mv ev am ts).map
          Prod.fst
        = ["check_type", "column", "column_alias", "date", "filter_applied",
           "description", "metric_value", "thresholds", "status", "severity",
           "exceeded_threshold", "additional_metrics", "timestamp"]
      ∧ rget (createResultRecord checkType config column date mv ev am ts)
          "status" = some (.status ev.status)
      ∧ rget (createResultRecord checkType config column date mv ev am ts)
          "severity" = some (.severity ev.severity))
    ∧ (∀ (checkType column : String) (e : PyErr)
        (ctx : List (String × RVal)),
      (handleColumnError checkType column e ctx).map Prod.fst
        = ["check_type", "column", "status", "severity", "error_message",
           "error_type", "context"]
      ∧ rget (handleColumnError checkType column e ctx) "status"
          = some (.status .ERROR)
      ∧ rget (handleColumnError checkType column e ctx) "severity"
          = some (.severity .ERROR))
    ∧ (∀ (checkType : String) (e : PyErr),
      (managerErrorRecord checkType e).map Prod.fst
        = ["check_type", "column", "status", "severity", "error_message",
           "error_type"]
      ∧ rget (managerErrorRecord checkType e) "column" = some .null
      ∧ rget (managerErrorRecord checkType e) "status"
          = some (.status .ERROR))
    ∧ (∀ (column measure date : String) (value : ℚ) (st : CheckStatus)
        (sev : Severity) (exc : Option ThVal) (th : MeasureThresholds)
        (ts : String),
      (statMeasureRecord column measure date value st sev exc th ts).map
          Prod.fst
        = ["check_type", "column", "measure", "date", "metric_value",
           "status", "severity", "exceeded_threshold", "thresholds",
           "timestamp"]) :=
  ⟨fun _ _ _ _ _ _ _ _ => ⟨rfl, rfl, rfl⟩,
   fun _ _ _ _ => ⟨rfl, rfl, rfl⟩,
   fun _ _ => ⟨rfl, rfl, rfl⟩,
   fun _ _ _ _ _ _ _ _ _ => rfl⟩

/-- Modelled from the spec's words for comparison with the source metric
(refinement check): the uniqueness duplicate count "with nulls excluded
from the comparison" — rows whose (non-null) value appears more than once
minus the distinct duplicated values, computed after dropping nulls. -/
def specNullsExcludedDuplicateCount (vals : List Cell) : ℕ :=
  ((vals.filterMap id).filter
      (fun v => 2 ≤ (vals.filterMap id).count v)).length
    - ((vals.filterMap id).filter
        (fun v => 2 ≤ (vals.filterMap id).count v)).dedup.length

/-- C6 counterexample: pandas `duplicated(keep=False)` treats nulls as
equal to each other while `nunique()` drops them, so a column of two nulls
gets duplicate count 2, not the 0 demanded by "nulls excluded from the
comparison". -/
theorem duplicateCount_nulls_cex :
    duplicateCount [none, none] = 2
    ∧ specNullsExcludedDuplicateCount [none, none] = 0
    ∧ duplicateCount [none, none]
        ≠ specNullsExcludedDuplicateCount [none, none] := by
  refine ⟨by decide, by decide, by decide⟩

theorem eq_map_some_of_none_not_mem {vals : List Cell}
    (h : Option.none ∉ vals) : vals = (vals.filterMap id).map some := by
  induction vals with
  | nil => rfl
  | cons a t ih =>
    match a with
    | none => exact absurd (List.mem_cons_self _ _) h
    | some x =>
      simp only [List.filterMap_cons, id, List.map_cons]
      rw [← ih (fun hm => h (List.mem_cons_of_mem _ hm))]

theorem filterMap_id_map_some (l : List ℚ) :
    (l.map some).filterMap id = l := by
  rw [List.filterMap_map]
  exact List.filterMap_some l

theorem count_some_map_some (l : List ℚ) (x : ℚ) :
    (l.map some).count (some x) = l.count x := by
  induction l with
  | nil => rfl
  | cons a t ih => simp [List.count_cons, ih]

theorem duplicateCount_map_some (l : List ℚ) :
    duplicateCount (l.map some)
      = specNullsExcludedDuplicateCount (l.map some) := by
  have hfilter : (l.map some).filter (fun v => 2 ≤ (l.map some).count v)
      = (l.filter (fun x => 2 ≤ l.count x)).map some := by
    rw [List.filter_map]
    congr 1
    apply List.filter_congr
    intro x _
    simp [Function.comp, count_some_map_some]
  simp only [duplicateCount, duplicatedRows, nuniqueDuplicated,
    specNullsExcludedDuplicateCount, filterMap_id_map_some]
  rw [hfilter, List.length_map, filterMap_id_map_some]

/-- The ids column `[1, 2, 3, 3, 3, 4]` of the spec's uniqueness example. -/
def idsDf : Df :=
  ⟨["id"],
   [[("id", some 1)], [("id", some 2)], [("id", some 3)],
    [("id", some 3)], [("id", some 3)], [("id", some 4)]]⟩

/-- C6 amended: the uniqueness metric is
`duplicated_rows − distinct_duplicated_values`, but nulls are not excluded:
they take part in duplicate detection (pandas treats them as equal) while
being dropped from the distinct count, so the claimed nulls-excluded
formula holds exactly on null-free columns; the spec's worked example
stands: ids `[1,2,3,3,3,4]` give duplicate count 2, FAIL under
`absolute_critical = 0` and PASS under `absolute_critical = 5`. -/
theorem duplicateCount_spec_amended :
    (∀ vals : List Cell, Option.none ∉ vals →
      duplicateCount vals = specNullsExcludedDuplicateCount vals)
    ∧ duplicateCount [some 1, some 2, some 3, some 3, some 3, some 4] = 2
    ∧ (uniquenessRun idsDf "date" "2024-01-01" "2024-01-01T00:00:00"
        [("id", { thresholds := [("absolute_critical", 0)] })]).map
          (fun r => rget r "status") = [some (.status .FAIL)]
    ∧ (uniquenessRun idsDf "date" "2024-01-01" "2024-01-01T00:00:00"
        [("id", { thresholds := [("absolute_critical", 5)] })]).map
          (fun r => rget r "status") = [some (.status .PASS)] := by
  refine ⟨fun vals h => ?_, by decide, rfl, rfl⟩
  rw [eq_map_some_of_none_not_mem h]
  exact duplicateCount_map_some _

/-- Witness for `duplicateCount_spec_amended` on the null-free column
`[1, 2, 2]`. -/
theorem duplicateCount_spec_amended_witness :
    duplicateCount [some 1, some 2, some 2]
      = specNullsExcludedDuplicateCount [some 1, some 2, some 2] :=
  duplicateCount_spec_amended.1 [some 1, some 2, some 2] (by decide)

theorem rget_createResultRecord_status (checkType : String)
    (config : ColConfig) (column : String) (date : RVal) (mv : Cell)
    (ev : Evaluation) (am : List (String × RVal)) (ts : String) :
    rget (createResultRecord checkType config column date mv ev am ts)
      "status" = some (.status ev.status) := rfl

/-- C8: the range check's out-of-range count is the number of non-null
values strictly below `min_value` plus the number strictly above
`max_value`, a missing bound never flagging its side (`[-2, 5, 7, 12]`
with bounds 0/10 gives 2; with only `max_value = 10` gives 1); the record's
status is FAIL exactly when the count is positive (there is no WARNING
tier), and with zero non-null values the check returns the normal
`_create_result_record` record with PASS and metric 0. -/
theorem rangeCheck_spec :
    (∀ (values : List ℚ) (minV maxV : Option ℚ),
      outOfRangeCount values minV maxV
        = values.countP (fun v => match minV with
            | some m => decide (v < m)
            | none => false)
          + values.countP (fun v => match maxV with
            | some m => decide (v > m)
            | none => false))
    ∧ outOfRangeCount [-2, 5, 7, 12] (some 0) (some 10) = 2
    ∧ outOfRangeCount [-2, 5, 7, 12] none (some 10) = 1
    ∧ (∀ (udf : Df) (dateCol today ts column : String) (config : ColConfig),
      config.filter_condition = none →
      column ∈ udf.columns →
      (udf.colVals column).filterMap id ≠ [] →
      (rangeCheckColumn udf dateCol today ts column config).map
          (fun r => rget r "status")
        = .ok (some (.status
            (if 0 < outOfRangeCount ((udf.colVals column).filterMap id)
                config.min_value config.max_value
             then .FAIL else .PASS))))
    ∧ (∀ (udf : Df) (dateCol today ts column : String) (config : ColConfig),
      config.filter_condition = none →
      column ∈ udf.columns →
      (udf.colVals column).filterMap id = [] →
      rangeCheckColumn udf dateCol today ts column config
        = .ok (createResultRecord "range" config column (.str today)
            (some 0) ⟨.PASS, .INFO, none⟩
            [("out_of_range_count", .int 0),
             ("total_count", .int 0),
             ("message", .str "No non-null values to check")] ts)) := by
  refine ⟨?_, by decide, by decide, ?_, ?_⟩
  · intro values minV maxV
    cases minV <;> cases maxV <;>
      simp [outOfRangeCount, belowMinVals, aboveMaxVals,
        List.countP_eq_length_filter]
  · intro udf dateCol today ts column config hf hc hnz
    rw [rangeCheckColumn, hf]
    simp only [applyFilter]
    rw [if_neg (not_not_intro hc)]
    have hlen : ¬ ((udf.colVals column).filterMap id).length = 0 := by
      simpa [List.length_eq_zero] using hnz
    rw [if_neg hlen]
    show Except.ok _ = _
    simp only [Except.map, rget_createResultRecord_status]
    by_cases h : 0 < outOfRangeCount ((udf.colVals column).filterMap id)
        config.min_value config.max_value
    · rw [if_pos h]
      have : outOfRangeCount ((udf.colVals column).filterMap id)
          config.min_value config.max_value > 0 := h
      simp [outOfRangeCount] at this
      rw [if_pos (by simpa [outOfRangeCount] using h)]
    · rw [if_neg h]
      rw [if_neg (by simpa [outOfRangeCount] using h)]
  · intro udf dateCol today ts column config hf hc hz
    rw [rangeCheckColumn, hf]
    simp only [applyFilter]
    rw [if_neg (not_not_intro hc), hz]
    rfl

/-- The values `[-2, 5, 7, 12]` of the spec's range example. -/
def rangeDf : Df :=
  ⟨["price"],
   [[("price", some (-2))], [("price", some 5)],
    [("price", some 7)], [("price", some 12)]]⟩

def rangeCfg : ColConfig := { min_value := some 0, max_value := some 10 }

/-- Witness for `rangeCheck_spec`: the bounded-column conjunct on the
spec's example data. -/
theorem rangeCheck_spec_witness :
    (rangeCheckColumn rangeDf "date" "2024-01-01" "TS" "price"
        rangeCfg).map (fun r => rget r "status")
      = .ok (some (.status
          (if 0 < outOfRangeCount ((rangeDf.colVals "price").filterMap id)
              rangeCfg.min_value rangeCfg.max_value
           then .FAIL else .PASS))) :=
  rangeCheck_spec.2.2.2.1 rangeDf "date" "2024-01-01" "TS" "price"
    rangeCfg rfl (by decide) (by decide)

theorem pyRound_one (n : ℕ) : pyRound 1 n = 1 := by
  have h10 : ((10 : ℚ) ^ n) = ((10 ^ n : ℤ) : ℚ) := by push_cast; ring
  have hpos : (0 : ℚ) < (10 : ℚ) ^ n := by positivity
  simp only [pyRound, roundHalfEven, one_mul, h10, Int.floor_intCast,
    sub_self]
  rw [if_pos (by norm_num)]
  rw [← h10]
  exact div_self (ne_of_gt hpos)

/-- C7: the correlation check has inverted polarity — with both columns
present and a computed correlation `r`, the record's status is FAIL exactly
when `|r| < absolute_critical` (so `r = -0.95` against critical `0.8`
passes); temporal correlation with fewer than 2 distinct dates, or fewer
than 2 id-matched record pairs, returns PASS with metric value 1 and an
explanatory message; a missing `correlation_with` option or a missing
referenced column yields the `_handle_column_error` ERROR record. -/
theorem correlationCheck_spec :
    (∀ (pearson : List (Cell × Cell) → Cell) (udf : Df)
        (dateCol idCol today ts column other : String) (config : ColConfig)
        (r cr : ℚ),
      config.filter_condition = none →
      config.correlation_type = "cross_column" →
      config.correlation_with = some other →
      column ∈ udf.columns → other ∈ udf.columns →
      config.thresholds.lookup "absolute_critical" = some cr →
      pearson ((udf.colVals column).zip (udf.colVals other)) = some r →
      (correlationCheckColumn pearson udf dateCol idCol today ts column
          config).map (fun rec => rget rec "status")
        = .ok (some (.status (if |r| < cr then .FAIL else .PASS))))
    ∧ (∀ (pearson : List (Cell × Cell) → Cell) (udf : Df)
        (dateCol idCol today ts column : String) (config : ColConfig),
      config.filter_condition = none →
      config.correlation_type = "temporal" →
      column ∈ udf.columns →
      (sortedUniqueDates udf dateCol).length < 2 →
      (correlationCheckColumn pearson udf dateCol idCol today ts column
          config).map (fun rec =>
            (rget rec "status", rget rec "metric_value",
             rget rec "additional_metrics"))
        = .ok (some (.status .PASS), some (.num 1),
            some (.dict [("message",
              .str "Insufficient dates for temporal correlation")])))
    ∧ (∀ (pearson : List (Cell × Cell) → Cell) (udf : Df)
        (dateCol idCol today ts column : String) (config : ColConfig),
      config.filter_condition = none →
      config.correlation_type = "temporal" →
      column ∈ udf.columns →
      ¬ (sortedUniqueDates udf dateCol).length < 2 →
      (innerJoin
        (idValuePairs udf dateCol idCol column
          ((sortedUniqueDates udf dateCol)[(sortedUniqueDates udf
            dateCol).length - 2]?.getD 0))
        (idValuePairs udf dateCol idCol column
          ((sortedUniqueDates udf dateCol).getLast?.getD 0))).length < 2 →
      (correlationCheckColumn pearson udf dateCol idCol today ts column
          config).map (fun rec =>
            (rget rec "status", rget rec "metric_value",
             rget rec "additional_metrics"))
        = .ok (some (.status .PASS), some (.num 1),
            some (.dict [("message",
              .str "Insufficient matching records for correlation")])))
    ∧ (∀ (pearson : List (Cell × Cell) → Cell) (udf : Df)
        (dateCol idCol today ts column : String) (config : ColConfig),
      config.filter_condition = none →
      config.correlation_type = "cross_column" →
      column ∈ udf.columns →
      config.correlation_with = none →
      (correlationCheckColumn pearson udf dateCol idCol today ts column
          config).map (fun rec => rget rec "status")
        = .ok (some (.status .ERROR)))
    ∧ (∀ (pearson : List (Cell × Cell) → Cell) (udf : Df)
        (dateCol idCol today ts column other : String) (config : ColConfig),
      config.filter_condition = none →
      config.correlation_type = "cross_column" →
      column ∈ udf.columns →
      config.correlation_with = some other →
      other ∉ udf.columns →
      (correlationCheckColumn pearson udf dateCol idCol today ts column
          config).map (fun rec => rget rec "status")
        = .ok (some (.status .ERROR))) := by
  refine ⟨?_, ?_, ?_, ?_, ?_⟩
  · intro pearson udf dateCol idCol today ts column other config r cr
      hf hct hcw hc ho hcr hp
    rw [correlationCheckColumn, hf]
    simp only [applyFilter]
    rw [if_neg (not_not_intro hc), hct]
    rw [if_pos rfl, hcw]
    simp only
    rw [if_neg (not_not_intro ho), hp]
    simp only [Except.map, correlationDecisionRecord, hcr,
      Option.getD_some, rget_createResultRecord_status]
    by_cases h : |r| < cr
    · rw [if_pos h, if_pos (by simpa using h)]
    · rw [if_neg h, if_neg (by simpa using h)]
  · intro pearson udf dateCol idCol today ts column config hf hct hc hd
    rw [correlationCheckColumn, hf]
    simp only [applyFilter]
    rw [if_neg (not_not_intro hc), hct]
    rw [if_neg (by decide), if_pos hd]
    simp only [Except.map, insufficientDataRecord,
      rget_createResultRecord_status]
    show Except.ok (_, some (roundCell (some 1) 6), _) = _
    simp [roundCell, pyRound_one, createResultRecord, rget]
  · intro pearson udf dateCol idCol today ts column config hf hct hc hd hm
    rw [correlationCheckColumn, hf]
    simp only [applyFilter]
    rw [if_neg (not_not_intro hc), hct]
    rw [if_neg (by decide), if_neg hd, if_pos hm]
    simp only [Except.map, insufficientDataRecord,
      rget_createResultRecord_status]
    show Except.ok (_, some (roundCell (some 1) 6), _) = _
    simp [roundCell, pyRound_one, createResultRecord, rget]
  · intro pearson udf dateCol idCol today ts column config hf hct hc hcw
    rw [correlationCheckColumn, hf]
    simp only [applyFilter]
    rw [if_neg (not_not_intro hc), hct]
    rw [if_pos rfl, hcw]
    rfl
  · intro pearson udf dateCol idCol today ts column other config
      hf hct hc hcw ho
    rw [correlationCheckColumn, hf]
    simp only [applyFilter]
    rw [if_neg (not_not_intro hc), hct]
    rw [if_pos rfl, hcw]
    simp only
    rw [if_pos ho]
    rfl

/-- Two aligned columns for the correlation witness. -/
def corrDf : Df :=
  ⟨["x", "y"],
   [[("x", some 1), ("y", some 10)], [("x", some 2), ("y", some 8)]]⟩

/-- A `Series.corr` stub returning the spec example's Pearson value
`-0.95`. -/
def pearson95 : List (Cell × Cell) → Cell := fun _ => some (mkRat (-19) 20)

def corrCfg : ColConfig :=
  { correlation_type := "cross_column", correlation_with := some "y",
    thresholds := [("absolute_critical", mkRat 4 5)] }

/-- Witness for `correlationCheck_spec`: Pearson `-0.95` against
`absolute_critical = 0.8` is a PASS (`|−0.95| ≥ 0.8`). -/
theorem correlationCheck_spec_witness :
    (correlationCheckColumn pearson95 corrDf "date" "id" "2024-01-01" "TS"
        "x" corrCfg).map (fun rec => rget rec "status")
      = .ok (some (.status
          (if |mkRat (-19) 20| < mkRat 4 5 then .FAIL else .PASS))) :=
  correlationCheck_spec.1 pearson95 corrDf "date" "id" "2024-01-01" "TS"
    "x" "y" corrCfg (mkRat (-19) 20) (mkRat 4 5) rfl rfl rfl
    (by decide) (by decide) (by decide) rfl

end Sentri
